import Mathlib

/-!
Verification of `src/components/settings/WindowSettings.tsx` of the
cc-switch repository: a settings panel component rendering toggle rows for
window-behavior flags, a path input, and an asynchronous "clear VS Code
Claude configuration" action reported through toast notifications.

The component is embedded shallowly: pure expressions become Lean
functions, the JSX tree becomes a list of render nodes, and the async
handler becomes an explicit event trace (with the suspension point at the
`await` split into a start segment and a finish segment, driven by a small
event-loop state machine).
-/

namespace WindowSettings

/-- Modelled from the spec: `SettingsFormState` is declared in
`src/hooks/useSettings`, which is not part of the visible source. Per the
spec's data model it is a flat record of six boolean flags and an optional
string path. -/
structure SettingsFormState where
  launchOnStartup : Bool
  silentStartup : Bool
  enableClaudePluginIntegration : Bool
  enableVscodeClaudeSync : Bool
  skipClaudeOnboarding : Bool
  minimizeToTrayOnClose : Bool
  vscodeSettingsPath : Option String
deriving DecidableEq, Repr

/-- A `Partial<SettingsFormState>` value: every field optional. Each
control handler in the component builds one of these and passes it to the
`onChange` callback. -/
structure PartialSettings where
  launchOnStartup : Option Bool := none
  silentStartup : Option Bool := none
  enableClaudePluginIntegration : Option Bool := none
  enableVscodeClaudeSync : Option Bool := none
  skipClaudeOnboarding : Option Bool := none
  minimizeToTrayOnClose : Option Bool := none
  vscodeSettingsPath : Option (Option String) := none
deriving DecidableEq, Repr

/-- Number of keys present in a partial update. -/
def PartialSettings.keyCount (p : PartialSettings) : Nat :=
  p.launchOnStartup.isSome.toNat +
  p.silentStartup.isSome.toNat +
  p.enableClaudePluginIntegration.isSome.toNat +
  p.enableVscodeClaudeSync.isSome.toNat +
  p.skipClaudeOnboarding.isSome.toNat +
  p.minimizeToTrayOnClose.isSome.toNat +
  p.vscodeSettingsPath.isSome.toNat

/-- Merge a partial update into a settings record: the semantics of the
parent applying an `onChange` request, used to state frame conditions. -/
def applyPartial (s : SettingsFormState) (p : PartialSettings) :
    SettingsFormState where
  launchOnStartup := p.launchOnStartup.getD s.launchOnStartup
  silentStartup := p.silentStartup.getD s.silentStartup
  enableClaudePluginIntegration :=
    p.enableClaudePluginIntegration.getD s.enableClaudePluginIntegration
  enableVscodeClaudeSync :=
    p.enableVscodeClaudeSync.getD s.enableVscodeClaudeSync
  skipClaudeOnboarding := p.skipClaudeOnboarding.getD s.skipClaudeOnboarding
  minimizeToTrayOnClose :=
    p.minimizeToTrayOnClose.getD s.minimizeToTrayOnClose
  vscodeSettingsPath := p.vscodeSettingsPath.getD s.vscodeSettingsPath

/-- A rejection value of the external clear operation, as the catch block
observes it: `(error as Error)?.message` is `message` when the rejection
carries a non-nullish `message` property (`none` otherwise, also when the
rejection value itself is nullish), and `String(error)` is `stringRepr`. -/
structure RejValue where
  message : Option String
  stringRepr : String
deriving DecidableEq, Repr

/-- Outcome of awaiting `settingsApi.clearVscodeClaudeConfig()`. -/
inductive ClearOutcome where
  | resolves
  | rejects (error : RejValue)
deriving DecidableEq, Repr

/-- The external `settingsApi.clearVscodeClaudeConfig` call, embedded as a
fallible operation parameterised by its outcome. -/
def clearVscodeClaudeConfig (o : ClearOutcome) : Except RejValue Unit :=
  match o with
  | .resolves => .ok ()
  | .rejects e => .error e

/-- The error string built by the catch block, line 33 of the source:
`(error as Error)?.message ?? String(error)`. -/
def rejectionDisplay (e : RejValue) : String :=
  e.message.getD e.stringRepr

/-- Modelled from the spec: the translation lookup `t` of react-i18next is
an external collaborator (spec section 6). At the success call site the
component passes the default value rendered here. -/
def tClearSuccess : String := "VS Code Claude 插件配置已清除"

/-- Modelled from the spec: the translation lookup `t` at the failure call
site resolves the default template `清除失败: ` followed by the `error`
interpolation parameter. -/
def tClearFailed (error : String) : String := "清除失败: " ++ error

/-- Observable events the component emits: local state writes, the
external clear invocation, toast notifications, and `onChange` requests. -/
inductive UiEvent where
  | setClearing (b : Bool)
  | invokeClear
  | toastSuccess (text : String)
  | toastError (text : String)
  | emitChange (u : PartialSettings)
deriving DecidableEq, Repr

/-- Synchronous prefix of `handleClearVscodeConfig` up to the `await`:
`setIsClearing(true)` then entry of the try block, which starts the
external call. -/
def handleClearStart : List UiEvent :=
  [.setClearing true, .invokeClear]

/-- Continuation of `handleClearVscodeConfig` after the awaited call
settles: the success toast on resolution, the error toast (with the
message fallback) on rejection in the catch block, and the finally block
`setIsClearing(false)` on both paths. -/
def handleClearFinish (o : ClearOutcome) : List UiEvent :=
  (match clearVscodeClaudeConfig o with
    | .ok _ => [.toastSuccess tClearSuccess]
    | .error e => [.toastError (tClearFailed (rejectionDisplay e))]) ++
  [.setClearing false]

/-- Full event trace of one run of `handleClearVscodeConfig` (lines 20-39
of the source) whose awaited call has outcome `o`. -/
def handleClearVscodeConfig (o : ClearOutcome) : List UiEvent :=
  handleClearStart ++ handleClearFinish o

/-- Number of failure toasts in a trace. -/
def countToastError : List UiEvent → Nat
  | [] => 0
  | .toastError _ :: es => countToastError es + 1
  | _ :: es => countToastError es

/-- Number of success toasts in a trace. -/
def countToastSuccess : List UiEvent → Nat
  | [] => 0
  | .toastSuccess _ :: es => countToastSuccess es + 1
  | _ :: es => countToastSuccess es

/-- Number of invocations of the external clear operation in a trace. -/
def countInvokeClear : List UiEvent → Nat
  | [] => 0
  | .invokeClear :: es => countInvokeClear es + 1
  | _ :: es => countInvokeClear es

/-- Number of `onChange` requests in a trace. -/
def countEmitChange : List UiEvent → Nat
  | [] => 0
  | .emitChange _ :: es => countEmitChange es + 1
  | _ :: es => countEmitChange es

/-- Value of the `isClearing` state after replaying a trace from `init`.
The component initialises it with `useState(false)`. -/
def finalClearing (init : Bool) (tr : List UiEvent) : Bool :=
  tr.foldl (fun s e => match e with | .setClearing b => b | _ => s) init

/-- Settings record after replaying the `onChange` requests of a trace:
only `emitChange` events touch it, through `applyPartial`. -/
def settingsAfter (s : SettingsFormState) (tr : List UiEvent) :
    SettingsFormState :=
  tr.foldl (fun acc e => match e with | .emitChange u => applyPartial acc u | _ => acc) s

/-- The `disabled` prop of the clear button, line 111 of the source:
`disabled=isClearing`. -/
def buttonDisabledState (isClearing : Bool) : Bool := isClearing

/-! Per-control rendered values and change handlers. The `checked` props
coerce with `!!` in the source; on the Bool-typed record that coercion is
the identity, written out here to keep the call sites aligned with the
source lines. -/

/-- Rendered `checked` of the launch-on-startup toggle, line 53. -/
def launchOnStartupChecked (s : SettingsFormState) : Bool :=
  s.launchOnStartup

/-- Handler of the launch-on-startup toggle, line 54. -/
def launchOnStartupOnChange (value : Bool) : PartialSettings :=
  { launchOnStartup := some value }

/-- Rendered `checked` of the silent-startup toggle, line 61. -/
def silentStartupChecked (s : SettingsFormState) : Bool :=
  s.silentStartup

/-- Handler of the silent-startup toggle, line 62. -/
def silentStartupOnChange (value : Bool) : PartialSettings :=
  { silentStartup := some value }

/-- Rendered `checked` of the plugin-integration toggle, line 69. -/
def enableClaudePluginIntegrationChecked (s : SettingsFormState) : Bool :=
  s.enableClaudePluginIntegration

/-- Handler of the plugin-integration toggle, lines 70-72. -/
def enableClaudePluginIntegrationOnChange (value : Bool) : PartialSettings :=
  { enableClaudePluginIntegration := some value }

/-- Rendered `checked` of the sync toggle, line 80. -/
def enableVscodeClaudeSyncChecked (s : SettingsFormState) : Bool :=
  s.enableVscodeClaudeSync

/-- Handler of the sync toggle, lines 81-83. -/
def enableVscodeClaudeSyncOnChange (value : Bool) : PartialSettings :=
  { enableVscodeClaudeSync := some value }

/-- Rendered `checked` of the skip-onboarding toggle, line 129. -/
def skipClaudeOnboardingChecked (s : SettingsFormState) : Bool :=
  s.skipClaudeOnboarding

/-- Handler of the skip-onboarding toggle, line 130. -/
def skipClaudeOnboardingOnChange (value : Bool) : PartialSettings :=
  { skipClaudeOnboarding := some value }

/-- Rendered `checked` of the tray-minimize toggle, line 137 (the one
`checked` prop the source passes without `!!`). -/
def minimizeToTrayChecked (s : SettingsFormState) : Bool :=
  s.minimizeToTrayOnClose

/-- Handler of the tray-minimize toggle, lines 138-140. -/
def minimizeToTrayOnChange (value : Bool) : PartialSettings :=
  { minimizeToTrayOnClose := some value }

/-- Modelled from the spec: `ToggleRow` lives in
`src/components/ui/toggle-row`, outside the visible source. Per the spec a
toggle row is an on/off control bound to `checked` that, on one user
interaction, calls `onCheckedChange` exactly once with the negated
rendered value. The result is the list of `onChange` requests the
interaction produces. -/
def toggleInteraction (checked : Bool)
    (onCheckedChange : Bool → PartialSettings) : List PartialSettings :=
  [onCheckedChange (!checked)]

/-- JavaScript `text || undefined` on a string: the empty string is the
only falsy string, so it normalises to absence. -/
def jsStringOrUndefined (text : String) : Option String :=
  if text = "" then none else some text

/-- Handler of the path input, lines 98-102 of the source:
`onChange(vscodeSettingsPath = e.target.value || undefined)`. -/
def vscodeSettingsPathInputChange (text : String) : PartialSettings :=
  { vscodeSettingsPath := some (jsStringOrUndefined text) }

/-- Displayed value of the path input, line 95 of the source:
`settings.vscodeSettingsPath ?? ""`. -/
def displayedVscodeSettingsPath (s : SettingsFormState) : String :=
  s.vscodeSettingsPath.getD ""

/-- Nodes of the rendered tree, at the granularity the claims need: the
section header, one node per toggle row carrying its rendered `checked`
value, and the conditional sync sub-panel carrying the input's displayed
value and the clear button's `disabled` state. -/
inductive RenderNode where
  | sectionHeader
  | toggleRowNode (key : String) (checked : Bool)
  | syncSubPanel (inputValue : String) (clearButtonDisabled : Bool)
deriving DecidableEq, Repr

/-- The JSX tree returned by `WindowSettings` (lines 41-144), flattened in
document order. The sync sub-panel block is guarded by
`settings.enableVscodeClaudeSync` (line 85). -/
def renderWindowSettings (s : SettingsFormState) (isClearing : Bool) :
    List RenderNode :=
  [ .sectionHeader,
    .toggleRowNode "launchOnStartup" (launchOnStartupChecked s),
    .toggleRowNode "silentStartup" (silentStartupChecked s),
    .toggleRowNode "enableClaudePluginIntegration"
      (enableClaudePluginIntegrationChecked s),
    .toggleRowNode "enableVscodeClaudeSync"
      (enableVscodeClaudeSyncChecked s) ] ++
  (if s.enableVscodeClaudeSync then
    [ .syncSubPanel (displayedVscodeSettingsPath s)
        (buttonDisabledState isClearing) ]
  else []) ++
  [ .toggleRowNode "skipClaudeOnboarding" (skipClaudeOnboardingChecked s),
    .toggleRowNode "minimizeToTray" (minimizeToTrayChecked s) ]

/-- Whether a render node is the sync sub-panel. -/
def isSyncSubPanelNode : RenderNode → Bool
  | .syncSubPanel _ _ => true
  | _ => false

/-- Whether the rendered tree contains the sync sub-panel. -/
def hasSyncSubPanel (ns : List RenderNode) : Bool :=
  ns.any isSyncSubPanelNode

/-! Event-loop state machine for the single-threaded execution model. A
click on the clear button runs the handler synchronously up to the await
(`handleClearStart`) and leaves one call pending; the later resolution of
that call runs the continuation (`handleClearFinish`). The pending count
is tracked as a Nat so that mutual exclusion is a proved invariant rather
than a representation choice. -/

/-- Component state between event-loop turns: the `isClearing` flag and
the number of clear invocations currently awaiting settlement. -/
structure CompState where
  isClearing : Bool
  pendingClears : Nat
deriving DecidableEq, Repr

/-- State at mount: `useState(false)`, nothing pending. -/
def initState : CompState := { isClearing := false, pendingClears := 0 }

/-- External stimuli the event loop delivers to the component. -/
inductive UiAction where
  | clickClearButton
  | resolveClear (o : ClearOutcome)
deriving DecidableEq, Repr

/-- One event-loop turn. A click on a disabled button delivers no handler
call (standard disabled-control semantics; the spec states the pending
click is a no-op), so when `isClearing` holds the state is unchanged and
no event fires. A resolution with nothing pending is likewise inert. -/
def step (st : CompState) : UiAction → CompState × List UiEvent
  | .clickClearButton =>
      if buttonDisabledState st.isClearing then (st, [])
      else ({ isClearing := true, pendingClears := st.pendingClears + 1 },
            handleClearStart)
  | .resolveClear o =>
      if st.pendingClears = 0 then (st, [])
      else ({ isClearing := false, pendingClears := st.pendingClears - 1 },
            handleClearFinish o)

/-- State after a sequence of event-loop turns. -/
def execState (st : CompState) (as : List UiAction) : CompState :=
  as.foldl (fun s a => (step s a).1) st

/-- Mutual-exclusion invariant: a clear invocation is pending exactly when
the `isClearing` flag is set. -/
def ClearInv (st : CompState) : Prop :=
  st.pendingClears = (if st.isClearing then 1 else 0)

/-! Theorems. -/

/-- One event-loop turn preserves the mutual-exclusion invariant. -/
theorem clearInv_step (st : CompState) (a : UiAction) (h : ClearInv st) :
    ClearInv (step st a).1 := by
  cases a with
  | clickClearButton =>
      by_cases hc : st.isClearing
      · simpa [step, buttonDisabledState, hc] using h
      · simp [step, buttonDisabledState, hc, ClearInv] at h ⊢
        simpa [hc] using h
  | resolveClear o =>
      by_cases hp : st.pendingClears = 0
      · simpa [step, hp] using h
      · simp [step, hp, ClearInv] at h ⊢
        rcases hi : st.isClearing with _ | _ <;> simp [hi] at h <;> omega

/-- Any sequence of event-loop turns preserves the invariant. -/
theorem clearInv_exec (as : List UiAction) (st : CompState)
    (h : ClearInv st) : ClearInv (execState st as) := by
  induction as generalizing st with
  | nil => simpa [execState] using h
  | cons a as ih =>
      have hs : execState st (a :: as) = execState (step st a).1 as := rfl
      rw [hs]
      exact ih _ (clearInv_step st a h)

/-- Claim C1: when the clear operation rejects with error message
"disk full", the handler catches the rejection and returns a complete
trace in which the external operation was invoked exactly once (no retry),
exactly one failure toast fires, its text contains "disk full", no success
toast fires, and the trigger button ends re-enabled. -/
theorem claim1_clear_failure_disk_full (e : RejValue)
    (h : rejectionDisplay e = "disk full") :
    countToastError (handleClearVscodeConfig (.rejects e)) = 1 ∧
    countToastSuccess (handleClearVscodeConfig (.rejects e)) = 0 ∧
    countInvokeClear (handleClearVscodeConfig (.rejects e)) = 1 ∧
    (∀ txt, UiEvent.toastError txt ∈ handleClearVscodeConfig (.rejects e) →
      ∃ pre post, txt = pre ++ "disk full" ++ post) ∧
    buttonDisabledState
      (finalClearing false (handleClearVscodeConfig (.rejects e))) = false := by
  refine ⟨rfl, rfl, rfl, ?_, rfl⟩
  intro txt htxt
  simp [handleClearVscodeConfig, handleClearStart, handleClearFinish,
    clearVscodeClaudeConfig] at htxt
  exact ⟨"清除失败: ", "", by rw [htxt, h]; rfl⟩

/-- Witness for C1 at the concrete rejection carrying message
"disk full". -/
theorem claim1_witness :
    rejectionDisplay ⟨some "disk full", "Error: disk full"⟩ = "disk full" ∧
    (countToastError (handleClearVscodeConfig
        (.rejects ⟨some "disk full", "Error: disk full"⟩)) = 1 ∧
      countToastSuccess (handleClearVscodeConfig
        (.rejects ⟨some "disk full", "Error: disk full"⟩)) = 0 ∧
      countInvokeClear (handleClearVscodeConfig
        (.rejects ⟨some "disk full", "Error: disk full"⟩)) = 1 ∧
      (∀ txt, UiEvent.toastError txt ∈ handleClearVscodeConfig
          (.rejects ⟨some "disk full", "Error: disk full"⟩) →
        ∃ pre post, txt = pre ++ "disk full" ++ post) ∧
      buttonDisabledState (finalClearing false (handleClearVscodeConfig
        (.rejects ⟨some "disk full", "Error: disk full"⟩))) = false) :=
  ⟨rfl, claim1_clear_failure_disk_full ⟨some "disk full", "Error: disk full"⟩ rfl⟩

/-- Claim C2: in every reachable state at most one clear invocation is in
flight, and a click on the clear button while `isClearing` holds leaves
the state unchanged and emits no event (the control is disabled). -/
theorem claim2_no_reentrancy :
    (∀ as : List UiAction, (execState initState as).pendingClears ≤ 1) ∧
    (∀ st : CompState, st.isClearing = true →
      step st .clickClearButton = (st, [])) := by
  constructor
  · intro as
    have h := clearInv_exec as initState (by simp [ClearInv, initState])
    rw [ClearInv] at h
    rw [h]
    split <;> omega
  · intro st hst
    simp [step, buttonDisabledState, hst]

/-- Witness for C2: one click from the initial state, and a click in a
concrete clearing state. -/
theorem claim2_witness :
    (execState initState [UiAction.clickClearButton]).pendingClears ≤ 1 ∧
    step ⟨true, 1⟩ UiAction.clickClearButton = (⟨true, 1⟩, []) :=
  ⟨claim2_no_reentrancy.1 [UiAction.clickClearButton],
   claim2_no_reentrancy.2 ⟨true, 1⟩ rfl⟩

/-- Claim C3: on resolution of the clear operation the handler's trace
fires exactly one success toast, no failure toast, and ends with the
trigger button re-enabled. -/
theorem claim3_clear_success :
    handleClearVscodeConfig .resolves =
      [.setClearing true, .invokeClear, .toastSuccess tClearSuccess,
       .setClearing false] ∧
    countToastSuccess (handleClearVscodeConfig .resolves) = 1 ∧
    countToastError (handleClearVscodeConfig .resolves) = 0 ∧
    countInvokeClear (handleClearVscodeConfig .resolves) = 1 ∧
    buttonDisabledState
      (finalClearing false (handleClearVscodeConfig .resolves)) = false :=
  ⟨rfl, rfl, rfl, rfl, rfl⟩

/-- Claim C4: whatever the outcome of the awaited call, the `isClearing`
flag is `false` after the handler's trace: the finally block resets it on
both exit paths. -/
theorem claim4_isClearing_reset (o : ClearOutcome) :
    finalClearing false (handleClearVscodeConfig o) = false := by
  cases o <;> rfl

/-- Claim C5: for each of the six boolean flags, one interaction with its
toggle produces exactly one `onChange` request, namely the single-key
partial update setting that flag to the negation of the rendered value. -/
theorem claim5_toggle_updates (s : SettingsFormState) :
    toggleInteraction (launchOnStartupChecked s) launchOnStartupOnChange =
      [{ launchOnStartup := some (!launchOnStartupChecked s) }] ∧
    (launchOnStartupOnChange (!launchOnStartupChecked s)).keyCount = 1 ∧
    toggleInteraction (silentStartupChecked s) silentStartupOnChange =
      [{ silentStartup := some (!silentStartupChecked s) }] ∧
    (silentStartupOnChange (!silentStartupChecked s)).keyCount = 1 ∧
    toggleInteraction (enableClaudePluginIntegrationChecked s)
        enableClaudePluginIntegrationOnChange =
      [{ enableClaudePluginIntegration :=
          some (!enableClaudePluginIntegrationChecked s) }] ∧
    (enableClaudePluginIntegrationOnChange
      (!enableClaudePluginIntegrationChecked s)).keyCount = 1 ∧
    toggleInteraction (enableVscodeClaudeSyncChecked s)
        enableVscodeClaudeSyncOnChange =
      [{ enableVscodeClaudeSync :=
          some (!enableVscodeClaudeSyncChecked s) }] ∧
    (enableVscodeClaudeSyncOnChange
      (!enableVscodeClaudeSyncChecked s)).keyCount = 1 ∧
    toggleInteraction (skipClaudeOnboardingChecked s)
        skipClaudeOnboardingOnChange =
      [{ skipClaudeOnboarding := some (!skipClaudeOnboardingChecked s) }] ∧
    (skipClaudeOnboardingOnChange
      (!skipClaudeOnboardingChecked s)).keyCount = 1 ∧
    toggleInteraction (minimizeToTrayChecked s) minimizeToTrayOnChange =
      [{ minimizeToTrayOnClose := some (!minimizeToTrayChecked s) }] ∧
    (minimizeToTrayOnChange (!minimizeToTrayChecked s)).keyCount = 1 :=
  ⟨rfl, rfl, rfl, rfl, rfl, rfl, rfl, rfl, rfl, rfl, rfl, rfl⟩

/-- Claim C6: the path input's handler sends a single-key update whose
value is the entered string when non-empty and absence when empty. -/
theorem claim6_path_input (text : String) :
    (text ≠ "" → vscodeSettingsPathInputChange text =
      { vscodeSettingsPath := some (some text) }) ∧
    (text = "" → vscodeSettingsPathInputChange text =
      { vscodeSettingsPath := some none }) ∧
    (vscodeSettingsPathInputChange text).keyCount = 1 := by
  refine ⟨?_, ?_, rfl⟩
  · intro h
    simp [vscodeSettingsPathInputChange, jsStringOrUndefined, h]
  · intro h
    subst h
    rfl

/-- Witness for C6 at the inputs "foo" and the empty string. -/
theorem claim6_witness :
    ("foo" ≠ "" ∧ vscodeSettingsPathInputChange "foo" =
      { vscodeSettingsPath := some (some "foo") }) ∧
    vscodeSettingsPathInputChange "" = { vscodeSettingsPath := some none } :=
  ⟨⟨by decide, (claim6_path_input "foo").1 (by decide)⟩,
   (claim6_path_input "").2.1 rfl⟩

/-- Claim C7: the rendered tree contains the sync sub-panel exactly when
`enableVscodeClaudeSync` is set. -/
theorem claim7_subpanel_iff_sync (s : SettingsFormState)
    (isClearing : Bool) :
    hasSyncSubPanel (renderWindowSettings s isClearing) =
      s.enableVscodeClaudeSync := by
  cases h : s.enableVscodeClaudeSync <;>
    simp [renderWindowSettings, hasSyncSubPanel, isSyncSubPanelNode, h]

/-- Claim C8: the clear handler emits no `onChange` request, so replaying
its trace leaves any settings record unchanged: the component's one
effectful operation has an empty frame on the settings. -/
theorem claim8_settings_frame (s : SettingsFormState) (o : ClearOutcome) :
    countEmitChange (handleClearVscodeConfig o) = 0 ∧
    settingsAfter s (handleClearVscodeConfig o) = s := by
  cases o <;> exact ⟨rfl, rfl⟩

/-- Claim C9: when the rejection value carries no message property, the
failure toast's error parameter falls back to the rejection's string
conversion, and for every rejection value the trace still contains exactly
one failure toast (built from `rejectionDisplay`). -/
theorem claim9_message_fallback (e : RejValue) :
    (e.message = none → rejectionDisplay e = e.stringRepr) ∧
    UiEvent.toastError (tClearFailed (rejectionDisplay e)) ∈
      handleClearVscodeConfig (.rejects e) ∧
    countToastError (handleClearVscodeConfig (.rejects e)) = 1 := by
  refine ⟨?_, ?_, rfl⟩
  · intro h
    simp [rejectionDisplay, h]
  · simp [handleClearVscodeConfig, handleClearStart, handleClearFinish,
      clearVscodeClaudeConfig]

/-- Witness for C9 at a message-less rejection whose string conversion is
the typical object form. -/
theorem claim9_witness :
    (⟨none, "[object Object]"⟩ : RejValue).message = none ∧
    rejectionDisplay ⟨none, "[object Object]"⟩ = "[object Object]" :=
  ⟨rfl, (claim9_message_fallback ⟨none, "[object Object]"⟩).1 rfl⟩

/-- Counterexample to C10 as stated: with the stored path equal to the
empty string (a legal value of an optional string field), the field
displays as the empty string, which re-parses to absence, not to the
stored empty string. -/
theorem claim10_counterexample :
    displayedVscodeSettingsPath
      ⟨false, false, false, true, false, false, some ""⟩ = "" ∧
    jsStringOrUndefined (displayedVscodeSettingsPath
        ⟨false, false, false, true, false, false, some ""⟩) ≠
      (⟨false, false, false, true, false, false, some ""⟩ :
        SettingsFormState).vscodeSettingsPath :=
  ⟨rfl, by decide⟩

/-- Claim C10 as amended: for every settings record whose stored path is
not the empty string (in particular absence and every non-empty string),
re-parsing the displayed text recovers the stored value. -/
theorem claim10_roundtrip_amended (s : SettingsFormState)
    (h : s.vscodeSettingsPath ≠ some "") :
    jsStringOrUndefined (displayedVscodeSettingsPath s) =
      s.vscodeSettingsPath := by
  cases hp : s.vscodeSettingsPath with
  | none => simp [displayedVscodeSettingsPath, jsStringOrUndefined, hp]
  | some str =>
      have hstr : str ≠ "" := by
        intro he
        exact h (hp.trans (by rw [he]))
      simp [displayedVscodeSettingsPath, jsStringOrUndefined, hp, hstr]

/-- Witness for the amended C10 at a record storing the path "foo". -/
theorem claim10_witness :
    (⟨false, false, false, true, false, false, some "foo"⟩ :
      SettingsFormState).vscodeSettingsPath ≠ some "" ∧
    jsStringOrUndefined (displayedVscodeSettingsPath
        ⟨false, false, false, true, false, false, some "foo"⟩) =
      some "foo" :=
  ⟨by decide,
   claim10_roundtrip_amended
     ⟨false, false, false, true, false, false, some "foo"⟩ (by decide)⟩

end WindowSettings
